import Mathlib

set_option linter.unusedVariables false

namespace Corex

/-- A routing key: request path plus HTTP method. -/
structure RouteKey where
  path : String
  method : String
deriving DecidableEq

/-- A response produced by dispatching a request; `notFound` is the
underlying router's fallback for unmatched requests. -/
inductive Response where
  | ok (body : String)
  | notFound
deriving DecidableEq

/-- Modelled from the spec: the underlying routing engine (axum's
`Router`) is an external collaborator, not code under `src/`.  Per the
spec, the router is a data structure mapping request paths and methods to
handler behavior; inserting a route for an already-present path+method
overrides the earlier one (order-dependent overwrite, last insertion
wins), and an unmatched request yields a not-found response.  We model
the table as a list of bindings where insertion prepends and dispatch
takes the first (most recent) match. -/
structure Router where
  routes : List (RouteKey × Response)
deriving DecidableEq

/-- `Router::new()`: the empty router. -/
def Router.new : Router := ⟨[]⟩

/-- `router.route(path, handler)`: add one route binding (most recent
binding shadows earlier ones for the same key). -/
def Router.route (r : Router) (k : RouteKey) (h : Response) : Router :=
  ⟨(k, h) :: r.routes⟩

/-- Dispatch a request: first (most recently inserted) matching binding,
falling back to a not-found response. -/
def Router.dispatch (r : Router) (k : RouteKey) : Response :=
  match r.routes.find? (fun p => p.fst = k) with
  | some p => p.snd
  | none => Response.notFound

/-- The extension capability (`ExtensionTrait` in `src/src/lib.rs`): a
name plus an `extend` function from router to router. -/
structure ExtensionTrait where
  name : String
  extend : Router → Router

/-- The shell (`CoreX` in `src/src/lib.rs`): router, ordered extension
sequence, and bind parameters.  The port is a 16-bit unsigned integer,
modelled as a `Nat` (bounds stated where a claim needs them). -/
structure CoreX where
  router : Router
  extensions : List ExtensionTrait
  host : String
  port : Nat

/-- `CoreX::new(host, port)` from `src/src/lib.rs`: empty router, empty
extension sequence, host and port stored as given. -/
def CoreX.new (host : String) (port : Nat) : CoreX :=
  { router := Router.new
    extensions := []
    host := host
    port := port }

/-- `CoreX::register_extension` from `src/src/lib.rs`: pushes the
extension onto the end of the `extensions` vector. -/
def CoreX.register_extension (c : CoreX) (extension : ExtensionTrait) : CoreX :=
  { c with extensions := c.extensions ++ [extension] }

/-- `CoreX::build` from `src/src/lib.rs`: left-fold of the registered
extensions over the shell's router, in registration order. -/
def CoreX.build (c : CoreX) : Router :=
  c.extensions.foldl (fun router extension => extension.extend router) c.router

/-- Observable events of `CoreX::run` (stdout lines, the bind attempt,
and the hand-off of the built router to `axum::serve`). -/
inductive Event where
  | print (line : String)
  | bindAttempt (addr : String)
  | serve (router : Router)
deriving DecidableEq

/-- Outcome of `CoreX::run`: the ordered event trace and whether the call
panicked (the `unwrap()` on a failed bind). -/
structure RunResult where
  trace : List Event
  panicked : Bool
deriving DecidableEq

/-- `CoreX::run` from `src/src/lib.rs`, as a trace function parameterized
by whether the `TcpListener::bind` succeeds.  Faithful to the source
order: format `addr` as `host:port`, build the router, print the startup
line, then attempt the bind; on success serve the built router, on
failure the `unwrap()` panics. -/
def CoreX.run (c : CoreX) (bindOk : Bool) : RunResult :=
  let addr := c.host ++ ":" ++ toString c.port
  let router := c.build
  { trace := [Event.print ("Server running at http://" ++ addr), Event.bindAttempt addr]
      ++ (if bindOk then [Event.serve router] else [])
    panicked := !bindOk }

/-- Register a whole sequence of extensions, left to right. -/
def registerAll (c : CoreX) (exts : List ExtensionTrait) : CoreX :=
  exts.foldl CoreX.register_extension c

/-- An extension that only adds routes: its `extend` inserts each of the
given bindings, in order, into the router it receives (the purely
additive shape the spec's extension contract describes). -/
def routesExtension (name : String) (rs : List (RouteKey × Response)) : ExtensionTrait :=
  { name := name
    extend := fun r => rs.foldl (fun acc kr => acc.route kr.fst kr.snd) r }

/-- The last binding for key `k` in an insertion list, if any. -/
def lookupLast (l : List (RouteKey × Response)) (k : RouteKey) : Option Response :=
  (l.reverse.find? (fun p => p.fst = k)).map (fun p => p.snd)

/-- Recognizer for print events. -/
def Event.isPrint : Event → Bool
  | Event.print _ => true
  | _ => false

/-- Recognizer for bind-attempt events. -/
def Event.isBindAttempt : Event → Bool
  | Event.bindAttempt _ => true
  | _ => false

/-- Recognizer for serve events. -/
def Event.isServe : Event → Bool
  | Event.serve _ => true
  | _ => false

theorem routes_foldl_route (l : List (RouteKey × Response)) (r : Router) :
    (l.foldl (fun acc kr => acc.route kr.fst kr.snd) r).routes = l.reverse ++ r.routes := by
  induction l generalizing r with
  | nil => simp
  | cons a t ih =>
    rw [List.foldl_cons, ih]
    simp [Router.route]

theorem registerAll_eq (c : CoreX) (exts : List ExtensionTrait) :
    registerAll c exts = { c with extensions := c.extensions ++ exts } := by
  induction exts generalizing c with
  | nil => simp [registerAll]
  | cons e t ih =>
    simp only [registerAll, List.foldl] at *
    rw [ih]
    simp [CoreX.register_extension]

theorem build_registerAll_new (h : String) (p : Nat) (exts : List ExtensionTrait) :
    (registerAll (CoreX.new h p) exts).build
      = exts.foldl (fun r e => e.extend r) Router.new := by
  rw [registerAll_eq]
  simp [CoreX.build, CoreX.new]

/-- C8: for every host string and every 16-bit port, `new(host, port)`
constructs a shell whose router is the empty router and whose extension
sequence is empty, storing host and port as given; it is a total function
(no I/O, no failure). -/
theorem new_initial_state (h : String) (p : Nat) (hp : p < 65536) :
    (CoreX.new h p).router = Router.new ∧ (CoreX.new h p).extensions = [] ∧
    (CoreX.new h p).host = h ∧ (CoreX.new h p).port = p :=
  ⟨rfl, rfl, rfl, rfl⟩

/-- Witness for C8 at host "127.0.0.1", port 3000. -/
theorem new_initial_state_witness :
    3000 < 65536 ∧
    ((CoreX.new "127.0.0.1" 3000).router = Router.new ∧
      (CoreX.new "127.0.0.1" 3000).extensions = [] ∧
      (CoreX.new "127.0.0.1" 3000).host = "127.0.0.1" ∧
      (CoreX.new "127.0.0.1" 3000).port = 3000) :=
  ⟨by norm_num, new_initial_state "127.0.0.1" 3000 (by norm_num)⟩

/-- C9: `register_extension` modifies only the extensions sequence: the
router, host and port fields are unchanged, and after any sequence of
registrations starting from `new` the stored router is still the empty
router. -/
theorem register_extension_frame (c : CoreX) (e : ExtensionTrait)
    (h : String) (p : Nat) (exts : List ExtensionTrait) :
    (c.register_extension e).router = c.router ∧
    (c.register_extension e).host = c.host ∧
    (c.register_extension e).port = c.port ∧
    (registerAll (CoreX.new h p) exts).router = Router.new := by
  refine ⟨rfl, rfl, rfl, ?_⟩
  rw [registerAll_eq]
  rfl

/-- C6: for every shell and every extension (duplicates and colliding or
empty names included), `register_extension` appends the extension to the
end of the ordered sequence, performs no validation and never fails (it
is a total function); duplicate registrations are kept, and every
occurrence is applied by `build` (registering `e` makes `build` apply
`e.extend` on top of the previous build result). -/
theorem register_extension_appends (c : CoreX) (e : ExtensionTrait) :
    (c.register_extension e).extensions = c.extensions ++ [e] ∧
    ((c.register_extension e).register_extension e).extensions = c.extensions ++ [e, e] ∧
    (c.register_extension e).build = e.extend c.build := by
  refine ⟨rfl, by simp [CoreX.register_extension], ?_⟩
  simp [CoreX.build, CoreX.register_extension, List.foldl_append]

/-- C10: `build` does not depend on the bind parameters: two shells
constructed with arbitrary hosts and ports but identical registration
sequences build the same router. -/
theorem build_ignores_bind_params (h1 h2 : String) (p1 p2 : Nat)
    (exts : List ExtensionTrait) :
    (registerAll (CoreX.new h1 p1) exts).build
      = (registerAll (CoreX.new h2 p2) exts).build := by
  rw [build_registerAll_new, build_registerAll_new]

/-- C7: determinism of `build`: two independently constructed shells
given identical registration sequences and the same bind parameters
build structurally equal routers (extensions are deterministic in this
model, as the claim assumes). -/
theorem build_deterministic (h : String) (p : Nat) (exts : List ExtensionTrait)
    (s1 s2 : CoreX) (h1 : s1 = registerAll (CoreX.new h p) exts)
    (h2 : s2 = registerAll (CoreX.new h p) exts) :
    s1.build = s2.build := by
  rw [h1, h2]

/-- Witness for C7 at a concrete host, port and one-extension
registration sequence. -/
theorem build_deterministic_witness :
    (registerAll (CoreX.new "127.0.0.1" 3000)
        [routesExtension "TestExtension"
          [(⟨"/test", "GET"⟩, Response.ok "Test endpoint")]]).build
      = (registerAll (CoreX.new "127.0.0.1" 3000)
          [routesExtension "TestExtension"
            [(⟨"/test", "GET"⟩, Response.ok "Test endpoint")]]).build :=
  build_deterministic "127.0.0.1" 3000
    [routesExtension "TestExtension" [(⟨"/test", "GET"⟩, Response.ok "Test endpoint")]]
    _ _ rfl rfl

/-- C5: for a shell with zero registered extensions whose router is the
initial empty router, `build()` returns the empty router, under which
every request path and method dispatches to a not-found response. -/
theorem build_empty_extensions (c : CoreX) (k : RouteKey)
    (hext : c.extensions = []) (hr : c.router = Router.new) :
    c.build = Router.new ∧ c.build.dispatch k = Response.notFound := by
  have hb : c.build = Router.new := by
    simp [CoreX.build, hext, hr]
  exact ⟨hb, by simp [hb, Router.dispatch, Router.new]⟩

/-- Witness for C5 at the shell of the repository's no-extension test
(`127.0.0.1:3001`) and the request `GET /`. -/
theorem build_empty_extensions_witness :
    (CoreX.new "127.0.0.1" 3001).extensions = [] ∧
    (CoreX.new "127.0.0.1" 3001).router = Router.new ∧
    ((CoreX.new "127.0.0.1" 3001).build = Router.new ∧
      (CoreX.new "127.0.0.1" 3001).build.dispatch ⟨"/", "GET"⟩ = Response.notFound) :=
  ⟨rfl, rfl, build_empty_extensions (CoreX.new "127.0.0.1" 3001) ⟨"/", "GET"⟩ rfl rfl⟩

/-- C1: `build` left-folds the extension sequence over the initial empty
router in registration order; for two route-adding extensions A and B
registered in order [A, B], dispatch on the built router returns B's
(last) binding where B defines the key, otherwise A's (last) binding
where A defines it, otherwise not-found — so the built router contains
all of A's and all of B's routes, with B winning on common path+method
(last-registered-wins). -/
theorem build_two_extensions_last_wins (h : String) (p : Nat)
    (exts : List ExtensionTrait) (nA nB : String)
    (ra rb : List (RouteKey × Response)) (k : RouteKey) :
    (registerAll (CoreX.new h p) exts).build
        = exts.foldl (fun r e => e.extend r) Router.new ∧
    (((CoreX.new h p).register_extension (routesExtension nA ra)).register_extension
        (routesExtension nB rb)).build.dispatch k
      = ((lookupLast rb k).or (lookupLast ra k)).getD Response.notFound := by
  refine ⟨build_registerAll_new h p exts, ?_⟩
  have hroutes :
      (((CoreX.new h p).register_extension (routesExtension nA ra)).register_extension
          (routesExtension nB rb)).build.routes = rb.reverse ++ ra.reverse := by
    simp [CoreX.build, CoreX.register_extension, CoreX.new, routesExtension,
      routes_foldl_route, Router.new]
  unfold Router.dispatch
  rw [hroutes, List.find?_append]
  unfold lookupLast
  cases hfb : rb.reverse.find? (fun q => q.fst = k) with
  | none =>
    cases hfa : ra.reverse.find? (fun q => q.fst = k) with
    | none => simp [hfb, hfa]
    | some v => simp [hfb, hfa]
  | some v => simp [hfb]

/-- C3 counterexample: the claim that the startup line is emitted only on
successful bind fails on the code: `run` prints the line before
attempting the bind, so on a shell at 127.0.0.1:3000 whose bind fails,
the call panics yet its trace still contains the startup print. -/
theorem run_startup_line_without_bind :
    ((CoreX.new "127.0.0.1" 3000).run false).panicked = true ∧
    Event.print "Server running at http://127.0.0.1:3000" ∈
      ((CoreX.new "127.0.0.1" 3000).run false).trace := by
  constructor
  · rfl
  · have htr : ((CoreX.new "127.0.0.1" 3000).run false).trace
        = [Event.print "Server running at http://127.0.0.1:3000",
           Event.bindAttempt "127.0.0.1:3000"] := by decide
    rw [htr]
    simp

/-- C3 (amended): during `run()`, the startup line
`Server running at http://<host>:<port>` is emitted exactly once, as the
first observable event and hence before the bind attempt, regardless of
whether the bind succeeds. -/
theorem run_startup_line_once_before_bind (c : CoreX) (b : Bool) :
    (c.run b).trace.countP Event.isPrint = 1 ∧
    (c.run b).trace.head?
      = some (Event.print ("Server running at http://" ++ (c.host ++ ":" ++ toString c.port))) := by
  cases b <;> simp [CoreX.run, Event.isPrint]

/-- C4: `run()` performs `build()` internally and serves the built
router, formats the bind address exactly as `host:port`, attempts
exactly one bind at that address; on success it serves the built router
(the final event), and a bind failure is fatal: the call panics, nothing
is served, and there is no retry and no fallback (still exactly one bind
attempt). -/
theorem run_binds_once_and_serves_build (c : CoreX) (b : Bool) :
    (c.run b).trace.countP Event.isBindAttempt = 1 ∧
    Event.bindAttempt (c.host ++ ":" ++ toString c.port) ∈ (c.run b).trace ∧
    (if b then
      (c.run b).trace.getLast? = some (Event.serve c.build) ∧ (c.run b).panicked = false
     else
      (c.run b).panicked = true ∧ (c.run b).trace.countP Event.isServe = 0) := by
  cases b <;> simp [CoreX.run, Event.isBindAttempt, Event.isServe]

end Corex
